import Mathlib

/-!
Verification of the STORMSIGHT-AI storm-track system.

The repository has two Python components sharing one record schema:
* `load_track_data.py`: reads a KMZ archive, parses the KML inside with lxml,
  extracts one record per `Placemark` (coordinates, DTG timestamp, wind,
  pressure), and replaces the batch stored under a fixed `storm_id` in a
  MongoDB collection (delete-then-insert).
* `backend.py`: a Flask endpoint `/track_data` that resolves optional
  `timestamp` / `start` / `end` / `storm_id` parameters into a store query
  (nearest-at-or-before instant, inclusive range, or full track) and
  serializes the matching records as GeoJSON features.

This file is a shallow embedding of that code.  Python strings are Lean
`String`s; the string primitives the code relies on (`in`, `split`, `strip`,
lexicographic comparison) are implemented over `String.data` so that every
definition evaluates inside the kernel.  MongoDB is treated as a black-box
store holding a list of records; its string comparison is byte-wise, which on
the ASCII timestamp strings used here coincides with lexicographic comparison
of code points, and its `sort` is modeled by `List.insertionSort`.  External
library calls (`float`, `int`, `datetime.fromisoformat`) are parameters of
the corresponding definitions; theorems quantify over them.
-/

set_option maxRecDepth 8000

namespace StormSight

/-! ## Character and string primitives (Python `str` operations) -/

/-- Whitespace characters stripped by Python `str.strip()` (ASCII subset;
the source data is ASCII). -/
def isPySpace (c : Char) : Bool :=
  c == ' ' || c == '\t' || c == '\n' || c == '\r' || c == '\x0b' || c == '\x0c'

/-- ASCII digit test (the `\d` of `_strptime`, and the outcome of Python
`isdigit` followed by `int()` as explained at `isDigitsNonempty`). -/
def isAsciiDigit (c : Char) : Bool :=
  decide (48 ≤ c.toNat) && decide (c.toNat ≤ 57)

/-- Numeric value of an ASCII digit character. -/
def digitVal (c : Char) : Nat := c.toNat - 48

/-- ASCII digit character for a value below 10. -/
def digitChar (n : Nat) : Char := Char.ofNat (48 + n)

/-- Lexicographic comparison of character lists by code point.  On the ASCII
timestamp strings stored by the loader this coincides with MongoDB's
byte-wise string comparison, which decides `$lte`/`$gte` and `sort`. -/
def lexLe : List Char → List Char → Bool
  | [], _ => true
  | _ :: _, [] => false
  | a :: as, b :: bs => if a == b then lexLe as bs else decide (a < b)

/-- String comparison used for every timestamp filter and sort. -/
def tsLe (s t : String) : Bool := lexLe s.data t.data

/-- First occurrence of `sep` in a character list: returns the characters
before the occurrence and the characters after it.  `none` when `sep` does
not occur.  This is the single primitive behind Python's `in`, `split` and
tuple-unpacking of `split` results as used by the loader. -/
def findOcc (sep : List Char) : List Char → Option (List Char × List Char)
  | [] => none
  | c :: rest =>
    if sep.isPrefixOf (c :: rest) then some ([], (c :: rest).drop sep.length)
    else (findOcc sep rest).map (fun p => (c :: p.1, p.2))

/-- Python `m in s` (for the non-empty literal markers used by the code). -/
def pyContains (s m : String) : Bool := (findOcc m.data s.data).isSome

/-- Characters after the first occurrence of `m` in `s`. -/
def afterFirst (m s : String) : Option String :=
  (findOcc m.data s.data).map (fun p => String.mk p.2)

/-- Python `s.split(m)[0]`: the segment before the first occurrence of `m`
(the whole string when `m` does not occur). -/
def beforeFirst (m s : String) : String :=
  match findOcc m.data s.data with
  | some p => String.mk p.1
  | none => s

/-- Python `s.split(m)[1]`: the segment between the first and second
occurrence of `m` (everything after the first occurrence when there is no
second one); `none` when `m` does not occur at all, modeling the guarded
`if m in s: ... s.split(m)[1]` pattern of the source. -/
def pySplitIdx1 (m s : String) : Option String :=
  (afterFirst m s).map (fun t => beforeFirst m t)

/-- Python `s.strip()`. -/
def pyStrip (s : String) : String :=
  String.mk (((s.data.dropWhile isPySpace).reverse.dropWhile isPySpace).reverse)

/-! ## Timestamps (`load_track_data.py` lines 153-165 and 188) -/

/-- A parsed `datetime` with UTC timezone attached (the loader only ever
builds whole-hour UTC instants, so minutes and seconds are always zero and
are not stored). -/
structure DateTimeUTC where
  year : Nat
  month : Nat
  day : Nat
  hour : Nat
deriving DecidableEq

/-- Proleptic-Gregorian leap year rule used by Python `datetime`. -/
def isLeapYear (y : Nat) : Bool :=
  y % 4 == 0 && (y % 100 != 0 || y % 400 == 0)

/-- Number of days of a month, as validated by the `datetime` constructor. -/
def daysInMonth (y m : Nat) : Nat :=
  if m == 2 then (if isLeapYear y then 29 else 28)
  else if m == 4 || m == 6 || m == 9 || m == 11 then 30
  else 31

/-- Python `datetime.strptime(s, "%Y%m%d%H")` on a 10-character input,
followed by `.replace(tzinfo=timezone.utc)`.  Because the whole input must
be consumed and each of `%m`, `%d`, `%H` matches at most two characters,
the only possible split of ten characters is 4+2+2+2; the two-character
alternatives of the `_strptime` regular expressions admit exactly months
1-12, days 1-31 and hours 0-23, and the `datetime` constructor then
validates the day against the month length and requires year ≥ 1.
A failure raises `ValueError`, caught by the loader: modeled as `none`. -/
def strptime10 (cs : List Char) : Option DateTimeUTC :=
  match cs with
  | [y1, y2, y3, y4, mo1, mo2, d1, d2, hr1, hr2] =>
    if [y1, y2, y3, y4, mo1, mo2, d1, d2, hr1, hr2].all isAsciiDigit then
      let y := digitVal y1 * 1000 + digitVal y2 * 100 + digitVal y3 * 10 + digitVal y4
      let mo := digitVal mo1 * 10 + digitVal mo2
      let d := digitVal d1 * 10 + digitVal d2
      let hr := digitVal hr1 * 10 + digitVal hr2
      if 1 ≤ y ∧ 1 ≤ mo ∧ mo ≤ 12 ∧ 1 ≤ d ∧ d ≤ daysInMonth y mo ∧ hr ≤ 23
      then some ⟨y, mo, d, hr⟩ else none
    else none
  | _ => none

/-- Lines 158-163: accept a DTG value only if it ends in `'Z'` and is exactly
11 characters long, then parse the first ten characters with
`strptime("%Y%m%d%H")`; every other value (and every `strptime` failure)
leaves the timestamp unset (a warning is logged, not modeled). -/
def parseDTGVal (v : String) : Option DateTimeUTC :=
  if v.data.getLast? == some 'Z' && v.data.length == 11 then
    strptime10 v.data.dropLast
  else none

/-- Zero-padded two-digit field of `strftime` (`%m`, `%d`, `%H`). -/
def pad2 (n : Nat) : String :=
  if n < 100 then String.mk [digitChar (n / 10), digitChar (n % 10)]
  else Nat.repr n

/-- Zero-padded four-digit year field of `strftime` (`%Y`). -/
def pad4 (n : Nat) : String :=
  if n < 10000 then
    String.mk [digitChar (n / 1000), digitChar (n / 100 % 10),
               digitChar (n / 10 % 10), digitChar (n % 10)]
  else Nat.repr n

/-- Date separator of the serialization format. -/
def dashStr : String := "-"

/-- Date/time separator of the serialization format. -/
def tSepStr : String := "T"

/-- Fixed minutes-and-seconds tail of the serialization format: DTG instants
have whole-hour precision, so `%M` and `%S` always render as `00`. -/
def minSecSuffix : String := ":00:00Z"

/-- Line 188: `timestamp.astimezone(timezone.utc).strftime("%Y-%m-%dT%H:%M:%SZ")`.
The instant is already UTC, so `astimezone` is the identity; minutes and
seconds of a DTG-parsed instant are zero. -/
def formatTs (dt : DateTimeUTC) : String :=
  pad4 dt.year ++ dashStr ++ pad2 dt.month ++ dashStr ++ pad2 dt.day ++ tSepStr ++
    pad2 dt.hour ++ minSecSuffix

/-! ## The stored record schema (`load_track_data.py` lines 186-194)

Latitude and longitude are Python floats; their numeric type is irrelevant
to every claim, so records are parameterized by the coordinate type `F` and
the parser `float(str)` is a parameter `fp : String → Option F` (`none`
models a raised `ValueError`). -/

/-- GeoJSON point geometry `{"type": "Point", "coordinates": [lon, lat]}`.
The `type` key is named `gtype` because `type` is reserved in Lean. -/
structure Geometry (F : Type) where
  gtype : String
  coordinates : List F
deriving DecidableEq

/-- One stored document of the `track_data` collection. -/
structure TrackRecord (F : Type) where
  storm_id : String
  timestamp : String
  latitude : F
  longitude : F
  location : Geometry F
  wind_kts : Option Int
  pressure_mb : Option Nat
deriving DecidableEq

/-- Constant `STORM_NAME_FOR_DB` (line 15). -/
def STORM_NAME_FOR_DB : String := "BESTTRACK_2020"

/-- Geometry type tag (line 191). -/
def pointType : String := "Point"

/-! ## Field extraction per placemark (`parse_kml_features`, lines 119-198) -/

/-- Literal marker before the DTG cell (line 155). -/
def dtgMarker : String := "DTG </B></td><td>"

/-- Literal marker before the intensity cell (line 169). -/
def intensityMarker : String := "Intensity </B></td><td>"

/-- Literal marker before the MSLP cell (line 177). -/
def mslpMarker : String := "MSLP </B></td><td>"

/-- Closing table-cell tag (lines 157, 171, 180). -/
def tdClose : String := "</td>"

/-- Unit-suffixed closing tag tolerated for the pressure cell (line 179). -/
def mbClose : String := " mb</td>"

/-- Empty string (used where a literal may not appear inline). -/
def emptyStr : String := ""

/-- Lines 155-157: slice the DTG value out of the description. -/
def extractDTGVal (desc : String) : Option String :=
  (pySplitIdx1 dtgMarker desc).map (fun part => pyStrip (beforeFirst tdClose part))

/-- Lines 153-165: the timestamp obtained from a description, `none` when the
marker is absent, the value malformed, or `strptime` fails. -/
def getTimestamp (desc : String) : Option DateTimeUTC :=
  (extractDTGVal desc).bind parseDTGVal

/-- Lines 169-171: slice the intensity value out of the description. -/
def extractIntensityVal (desc : String) : Option String :=
  (pySplitIdx1 intensityMarker desc).map (fun part => pyStrip (beforeFirst tdClose part))

/-- Lines 167-173: wind speed; `int()` is the parameter `ip`, any failure is
swallowed (`except Exception: pass`), and an empty value is never parsed. -/
def getWind (ip : String → Option Int) (desc : String) : Option Int :=
  (extractIntensityVal desc).bind (fun v => if v == emptyStr then none else ip v)

/-- Lines 177-180: the pressure value, using the segment before the first
`" mb</td>"` when that tag occurs in the cell and the segment before the
first `"</td>"` otherwise. -/
def pressureValOf (part : String) : String :=
  if pyContains part mbClose then pyStrip (beforeFirst mbClose part)
  else pyStrip (beforeFirst tdClose part)

/-- Line 181 guard: `pressure_val and pressure_val.isdigit()`.  Python
`isdigit` also accepts non-ASCII digit characters, but `int()` then raises
on them and the exception is swallowed, so the stored outcome coincides
with this ASCII check. -/
def isDigitsNonempty (v : String) : Bool :=
  !(v == emptyStr) && v.data.all isAsciiDigit

/-- Python `int()` on a non-empty all-digit string. -/
def digitsToNat (v : String) : Nat :=
  v.data.foldl (fun acc c => 10 * acc + digitVal c) 0

/-- Lines 175-182 applied to the text after the MSLP marker. -/
def parsePressurePart (part : String) : Option Nat :=
  if isDigitsNonempty (pressureValOf part) then some (digitsToNat (pressureValOf part))
  else none

/-- Lines 175-182: pressure from a description; unset (never raising) when
the marker is absent or the value is not a non-empty digit string. -/
def getPressure (desc : String) : Option Nat :=
  (pySplitIdx1 mslpMarker desc).bind parsePressurePart

/-- Comma separator of a KML coordinate triple. -/
def commaStr : String := ","

/-- Lines 134-140: `lon_str, lat_str, *_ = coord_text[0].strip().split(',')`
then `float` on both parts; any unpack or parse failure leaves the
coordinates unset. -/
def parseCoords {F : Type} (fp : String → Option F) (s : String) : Option (F × F) :=
  match findOcc commaStr.data (pyStrip s).data with
  | none => none
  | some p =>
    match fp (String.mk p.1), fp (beforeFirst commaStr (String.mk p.2)) with
    | some lon, some lat => some (lon, lat)
    | _, _ => none

/-- One `Placemark` element as the extraction loop sees it: its namespace
and tag (for the document-level XPath search of claim C6), the text of its
first `Point/coordinates` descendant, and the text of its first
`description` descendant (each already resolved through the namespaced /
non-namespaced sub-element fallback of lines 127-149, which yields at most
one relevant text node per placemark in this format). -/
structure Placemark where
  ns : Option String
  tag : String
  coordText : Option String
  descText : Option String
deriving DecidableEq

/-- Loop body, lines 119-198: a record is appended exactly when both
coordinates and a timestamp resolved; wind and pressure stay optional. -/
def processPlacemark {F : Type} (fp : String → Option F) (ip : String → Option Int)
    (pm : Placemark) : Option (TrackRecord F) :=
  match pm.coordText.bind (parseCoords fp), pm.descText.bind getTimestamp with
  | some lonlat, some t =>
    some ⟨STORM_NAME_FOR_DB, formatTs t, lonlat.2, lonlat.1,
          ⟨pointType, [lonlat.1, lonlat.2]⟩,
          pm.descText.bind (getWind ip), pm.descText.bind getPressure⟩
  | _, _ => none

/-! ## Namespace resolution and placemark lookup (lines 80-114)

The tree shape of the document is irrelevant to `//Placemark` searches, so
a parsed KML document is modeled as its declared namespace map (an
association list mirroring `root.nsmap`, whose first entry models
`next(iter(root.nsmap))`) together with the list of all its elements in
document order. -/

/-- A parsed KML document. -/
structure KmlDoc where
  nsmap : List (Option String × String)
  elements : List Placemark
deriving DecidableEq

/-- The conventional namespace key `'kml'`. -/
def kmlKey : String := "kml"

/-- Dictionary lookup in the namespace map. -/
def nsLookup (k : Option String) (nsmap : List (Option String × String)) : Option String :=
  (nsmap.find? (fun e => e.1 == k)).map (fun e => e.2)

/-- Lines 81-92: the namespace registered under the `'kml'` alias: the
default (prefix-less) declared namespace if present, else the namespace
declared under the `'kml'` prefix, else the first declared namespace;
`none` when the document declares no namespaces at all. -/
def selectNamespace (nsmap : List (Option String × String)) : Option String :=
  match nsmap with
  | [] => none
  | (_, u0) :: _ =>
    match nsLookup none nsmap with
    | some u => some u
    | none =>
      match nsLookup (some kmlKey) nsmap with
      | some u => some u
      | none => some u0

/-- Placemark tag name. -/
def placemarkTag : String := "Placemark"

/-- Search `//kml:Placemark` with the selected namespace bound to the
conventional alias (line 98). -/
def xpathPlacemarksNS (doc : KmlDoc) (uri : String) : List Placemark :=
  doc.elements.filter (fun e => e.ns == some uri && e.tag == placemarkTag)

/-- Search `//Placemark` with no namespace (line 109): in lxml an unprefixed XPath name matches
only elements with no namespace. -/
def xpathPlacemarksNoNS (doc : KmlDoc) : List Placemark :=
  doc.elements.filter (fun e => e.ns == none && e.tag == placemarkTag)

/-- Lines 94-111: search with the selected namespace when one exists; when
that yields no results (or no namespace was declared), retry the same
query without namespace qualification.  The `XPathEvalError` branches are
unreachable for these fixed query strings and are not modeled. -/
def findPlacemarks (doc : KmlDoc) : List Placemark :=
  let viaNS :=
    match selectNamespace doc.nsmap with
    | some uri => xpathPlacemarksNS doc uri
    | none => []
  if viaNS.isEmpty then xpathPlacemarksNoNS doc else viaNS

/-- Function `parse_kml_features` on a successfully parsed document: process every
placemark found, keeping the records that were admitted. -/
def parse_kml_features {F : Type} (fp : String → Option F) (ip : String → Option Int)
    (doc : KmlDoc) : List (TrackRecord F) :=
  (findPlacemarks doc).filterMap (processPlacemark fp ip)

/-! ## Ingestion orchestration (`__main__`, lines 219-271) -/

/-- The delete step, line 241: remove every record of the identifier. -/
def delete_many {F : Type} (store : List (TrackRecord F)) (sid : String) : List (TrackRecord F) :=
  store.filter (fun r => !(r.storm_id == sid))

/-- The insert step, line 245: append the new batch. -/
def insert_many {F : Type} (store recs : List (TrackRecord F)) : List (TrackRecord F) :=
  store ++ recs

/-- Lines 229-246: when extraction produced records, delete the old batch
for `STORM_NAME_FOR_DB` and insert the new one; when it produced none,
perform no database operation at all. -/
def ingestRecords {F : Type} (store storm_data : List (TrackRecord F)) : List (TrackRecord F) :=
  if storm_data.isEmpty then store
  else insert_many (delete_many store STORM_NAME_FOR_DB) storm_data

/-- Lines 219-271: the whole run against a store.  `kml = none` models
`find_kml_in_kmz` failing (missing archive or no KML inside); an
unparseable document is a `doc` whose extraction yields no records. -/
def runLoader {F : Type} (fp : String → Option F) (ip : String → Option Int)
    (store : List (TrackRecord F)) (kml : Option KmlDoc) : List (TrackRecord F) :=
  match kml with
  | none => store
  | some doc => ingestRecords store (parse_kml_features fp ip doc)

/-- Number of stored records carrying a given storm identifier. -/
def countStorm {F : Type} (store : List (TrackRecord F)) (sid : String) : Nat :=
  (store.filter (fun r => r.storm_id == sid)).length

/-! ## Query service (`backend.py`) -/

/-- Ascending timestamp order on records (`sort("timestamp", ASCENDING)`). -/
def rAsc (F : Type) : TrackRecord F → TrackRecord F → Prop :=
  fun a b => tsLe a.timestamp b.timestamp = true

/-- Descending timestamp order on records (`sort("timestamp", DESCENDING)`). -/
def rDesc (F : Type) : TrackRecord F → TrackRecord F → Prop :=
  fun a b => tsLe b.timestamp a.timestamp = true

instance {F : Type} : DecidableRel (rAsc F) :=
  fun a b => inferInstanceAs (Decidable (tsLe a.timestamp b.timestamp = true))

instance {F : Type} : DecidableRel (rDesc F) :=
  fun a b => inferInstanceAs (Decidable (tsLe b.timestamp a.timestamp = true))

/-- Lines 65-85: the exact-instant branch — dead code under the line-49
raise, see `get_track_data`.  `target` is the canonical
`strftime`-formatted string of the parsed instant.  Find the latest stored
record at or before the target for the storm (descending sort, limit 1);
when there is none, fall back to the earliest record for the storm
(ascending sort, limit 1). -/
def queryExactInstant {F : Type} (recs : List (TrackRecord F)) (storm target : String) :
    List (TrackRecord F) :=
  let before :=
    (List.insertionSort (rDesc F)
      (recs.filter (fun r => r.storm_id == storm && tsLe r.timestamp target))).take 1
  if before.isEmpty then
    (List.insertionSort (rAsc F) (recs.filter (fun r => r.storm_id == storm))).take 1
  else before

/-- Lines 87-103: the range branch — dead code under the line-49 raise,
see `get_track_data` — `start <= timestamp <= end` for the storm,
ascending (`$gte`/`$lte` are inclusive). -/
def queryRange {F : Type} (recs : List (TrackRecord F)) (storm startT endT : String) :
    List (TrackRecord F) :=
  List.insertionSort (rAsc F)
    (recs.filter (fun r => r.storm_id == storm && tsLe startT r.timestamp
                             && tsLe r.timestamp endT))

/-- Lines 104-108: no time filter, all points for the storm ascending —
dead code under the line-49 raise, see `get_track_data`. -/
def queryAll {F : Type} (recs : List (TrackRecord F)) (storm : String) :
    List (TrackRecord F) :=
  List.insertionSort (rAsc F) (recs.filter (fun r => r.storm_id == storm))

/-- Feature properties built on lines 116-122. -/
structure FeatureProps where
  timestamp : String
  wind_kts : Option Int
  pressure_mb : Option Nat
  storm_id : String
deriving DecidableEq

/-- One GeoJSON feature (lines 126-129). -/
structure Feature (F : Type) where
  geometry : Geometry F
  properties : FeatureProps
deriving DecidableEq

/-- Lines 114-129 for one record; the `if geometry:` guard is always taken
because every record of the modeled schema carries a location. -/
def toFeature {F : Type} (r : TrackRecord F) : Feature F :=
  ⟨r.location, ⟨r.timestamp, r.wind_kts, r.pressure_mb, r.storm_id⟩⟩

/-- Lines 114-132: the feature collection of a result list. -/
def toFeatureCollection {F : Type} (rs : List (TrackRecord F)) : List (Feature F) :=
  rs.map toFeature

/-- The HTTP response of the endpoint: a 200 feature collection, or an
error status with an error body. -/
inductive ApiResponse (F : Type) where
  | ok (features : List (Feature F))
  | err (status : Nat) (message : String)
deriving DecidableEq

/-- HTTP status of a response (`jsonify(...)` alone is 200). -/
def statusOf {F : Type} : ApiResponse F → Nat
  | .ok _ => 200
  | .err s _ => s

/-- The connected collection: its documents plus a flag modeling whether
executing a `find` raises (network or server fault at query time). -/
structure StoreConn (F : Type) where
  records : List (TrackRecord F)
  failQuery : Bool

/-- Python truthiness of an optional request parameter: an absent parameter
is `None`, and an empty string is falsy too. -/
def truthy : Option String → Bool
  | none => false
  | some s => !(s == emptyStr)

/-- Default storm identifier of the endpoint (line 59). -/
def defaultStormId : String := "BESTTRACK_2020"

/-- Error bodies (lines 50, 82, 85, 100, 103, 111). -/
def errDbConn : String := "Database connection failed"

/-- Body of the 400 response of the exact-instant branch. -/
def errBadTs : String := "Invalid timestamp format. Use ISO format like YYYY-MM-DDTHH:MM:SSZ"

/-- Body of the 400 response of the range branch. -/
def errBadRange : String := "Invalid start/end time format. Use ISO format like YYYY-MM-DDTHH:MM:SSZ"

/-- Body of the 500 response on a failed query. -/
def errQuery : String := "Database query failed"

/-- Body standing for the generic 500 page with which Flask answers an
exception that escapes the view — here the `NotImplementedError` raised on
line 49 (see `get_track_data`). -/
def errInternal : String := "Internal Server Error"

/-- Lines 52-135: the rest of the handler as written — parameter reading,
the three time-filter branches with their 400 and 500 error bodies, and
the feature-collection serialization.  This code is DEAD: it sits below
the line-49 truthiness test, which raises whenever the collection is a
real pymongo object (see `get_track_data`), so no request ever reaches
it.  It is kept as the model of what those lines would compute.  Here
`pi` is the composite of `datetime.fromisoformat(param.replace('Z',
'+00:00'))` (line 69) and `strftime("%Y-%m-%dT%H:%M:%SZ")`: `none` models
the `ValueError` of a malformed instant, `some target` the canonical
comparison string. -/
def track_data_body {F : Type} (pi : String → Option String) (st : StoreConn F)
    (tsP startP endP stormP : Option String) : ApiResponse F :=
  let storm := stormP.getD defaultStormId
  if truthy tsP then
    match pi (tsP.getD emptyStr) with
    | none => .err 400 errBadTs
    | some target =>
      if st.failQuery then .err 500 errQuery
      else .ok (toFeatureCollection (queryExactInstant st.records storm target))
  else if truthy startP && truthy endP then
    match pi (startP.getD emptyStr), pi (endP.getD emptyStr) with
    | some s, some e =>
      if st.failQuery then .err 500 errQuery
      else .ok (toFeatureCollection (queryRange st.records storm s e))
    | _, _ => .err 400 errBadRange
  else
    if st.failQuery then .err 500 errQuery
    else .ok (toFeatureCollection (queryAll st.records storm))

/-- Endpoint `get_track_data` (lines 41-135).  Line 48 fetches the
collection and line 49 evaluates `if not collection:`.  When the
connection failed the collection is `None`, the test succeeds, and the
endpoint answers the 500 connection-error body (line 50).  When the
connection succeeded the value is a real pymongo `Collection`, and
pymongo deliberately defines `Collection.__bool__` to raise
`NotImplementedError` (Collection objects do not implement truth value
testing; compare with None instead — a guard present since pymongo 3.0,
which this code requires for its `serverSelectionTimeoutMS` argument).
So the truthiness test itself raises on line 49, before any parameter is
read, the exception escapes the view, and Flask answers its generic 500
internal-server-error page.  The remainder of the handler — modeled by
`track_data_body` — is unreachable.  (Line 21 uses the correct
`is None` comparison; line 49 is the slip.) -/
def get_track_data {F : Type} (_pi : String → Option String) (conn : Option (StoreConn F))
    (_tsP _startP _endP _stormP : Option String) : ApiResponse F :=
  match conn with
  | none => .err 500 errDbConn
  | some _ => .err 500 errInternal

/-- A concrete executable instance of the instant parser `pi` — the
composite at line 69 of `datetime.fromisoformat(param.replace('Z',
'+00:00'))` and the `strftime` formatting at line 73 — restricted to the
canonical serialization shape `YYYY-MM-DDTHH:MM:SSZ`, on which that
composite is the identity.  The Python library accepts further ISO-8601
shapes, so theorems about the handler body quantify over the parser where
generality matters and use this instance at concrete inputs. -/
def isoParseModel (s : String) : Option String :=
  match s.data with
  | [y1, y2, y3, y4, da1, mo1, mo2, da2, d1, d2, tsep, h1, h2, co1, mi1, mi2, co2, se1, se2, z] =>
    if da1 == '-' && da2 == '-' && tsep == 'T' && co1 == ':' && co2 == ':' && z == 'Z'
        && [y1, y2, y3, y4, mo1, mo2, d1, d2, h1, h2, mi1, mi2, se1, se2].all isAsciiDigit then
      let y := digitVal y1 * 1000 + digitVal y2 * 100 + digitVal y3 * 10 + digitVal y4
      let mo := digitVal mo1 * 10 + digitVal mo2
      let d := digitVal d1 * 10 + digitVal d2
      let h := digitVal h1 * 10 + digitVal h2
      let mi := digitVal mi1 * 10 + digitVal mi2
      let se := digitVal se1 * 10 + digitVal se2
      if 1 ≤ y ∧ 1 ≤ mo ∧ mo ≤ 12 ∧ 1 ≤ d ∧ d ≤ daysInMonth y mo ∧ h ≤ 23 ∧ mi ≤ 59 ∧ se ≤ 59
      then some s else none
    else none
  | _ => none

/-! ## Concrete data used by witnesses and counterexamples -/

/-- A sample placemark description in the source's HTML-table shape. -/
def wDesc : String :=
  "<table><tr><td><B>DTG </B></td><td>2020112512Z</td></tr><tr><td><B>Intensity </B></td><td>45</td></tr><tr><td><B>MSLP </B></td><td>987 mb</td></tr></table>"

/-- A description whose DTG cell is malformed (10 characters, no `Z`). -/
def wDescBadDtg : String :=
  "<td><B>DTG </B></td><td>2020112512</td><td><B>MSLP </B></td><td>N/A</td>"

/-- Sample coordinate text `lon,lat,alt`. -/
def wCoordText : String := "85.5,12.25,0"

/-- Coordinate parser instance used by witnesses: coordinates are kept as
their source text (`F := String`), so parsing always succeeds. -/
def wFp : String → Option String := fun s => some s

/-- Intensity parser instance used by witnesses: decimal digits only. -/
def wIp : String → Option Int := fun s =>
  if isDigitsNonempty s then some (Int.ofNat (digitsToNat s)) else none

/-- A well-formed placemark (no namespace). -/
def wPm : Placemark := ⟨none, placemarkTag, some wCoordText, some wDesc⟩

/-- A placemark whose DTG is malformed. -/
def wPmBad : Placemark := ⟨none, placemarkTag, some wCoordText, some wDescBadDtg⟩

/-- Canonical instants used by the query witnesses. -/
def wT0 : String := "2020-11-25T00:00:00Z"

/-- Sample instant six hours after `wT0`. -/
def wT1 : String := "2020-11-25T06:00:00Z"

/-- Sample instant twelve hours after `wT0`. -/
def wT2 : String := "2020-11-25T12:00:00Z"

/-- An instant preceding all of `wT0`, `wT1`, `wT2`. -/
def wTearly : String := "2020-11-24T00:00:00Z"

/-- A stored record of the default storm at a given instant. -/
def wRecAt (ts : String) : TrackRecord Int :=
  ⟨STORM_NAME_FOR_DB, ts, 0, 0, ⟨pointType, [0, 0]⟩, none, none⟩

/-- A sample store, deliberately out of timestamp order. -/
def wStore : List (TrackRecord Int) := [wRecAt wT1, wRecAt wT0, wRecAt wT2]

/-- Longitude text of `wCoordText`. -/
def wLonStr : String := "85.5"

/-- Latitude text of `wCoordText`. -/
def wLatStr : String := "12.25"

/-- The record extracted from `wPm` (coordinates kept as source text). -/
def wRecFull : TrackRecord String :=
  ⟨STORM_NAME_FOR_DB, wT2, wLatStr, wLonStr, ⟨pointType, [wLonStr, wLatStr]⟩,
   some 45, some 987⟩

/-- A document without namespace declarations holding one valid placemark. -/
def wDoc : KmlDoc := ⟨[], [wPm]⟩

/-- A document whose only placemark has a malformed DTG: extraction yields
zero records. -/
def wDocBad : KmlDoc := ⟨[], [wPmBad]⟩

/-- A prefix that is neither the default nor the conventional one. -/
def wPrefK : String := "ns1"

/-- A declared namespace URI. -/
def wUri : String := "uri:kml-like"

/-- A document that declares a namespace under an unconventional prefix
while its placemark elements carry no namespace (a mis-declared document):
the namespaced search finds nothing and the unqualified retry succeeds. -/
def wDoc2 : KmlDoc := ⟨[(some wPrefK, wUri)], [wPm]⟩

/-- A malformed instant parameter value. -/
def wBadInstant : String := "not-a-date"

/-- A well-formed DTG value. -/
def wDtgVal : String := "2020112512Z"

/-- A malformed DTG value (ten characters, no trailing `Z`). -/
def wDtgBadVal : String := "2020112512"

/-- The instant encoded by `wDtgVal`. -/
def wDt : DateTimeUTC := ⟨2020, 11, 25, 12⟩

/-- A pressure cell whose value is not numeric. -/
def wNaCell : String := "N/A</td>"

/-- A healthy connection over the sample store. -/
def wConn : StoreConn Int := ⟨wStore, false⟩

/-- A connection whose queries fail. -/
def wConnFail : StoreConn Int := ⟨wStore, true⟩

/-! ## Order lemmas for the lexicographic comparison -/

theorem lexLe_refl : ∀ (s : List Char), lexLe s s = true
  | [] => rfl
  | a :: as => by simp [lexLe, lexLe_refl as]

theorem lexLe_total : ∀ (s t : List Char), lexLe s t = true ∨ lexLe t s = true
  | [], _ => Or.inl rfl
  | _ :: _, [] => Or.inr rfl
  | a :: as, b :: bs => by
    by_cases hab : a = b
    · subst hab
      simpa [lexLe] using lexLe_total as bs
    · rcases lt_or_gt_of_ne hab with h | h
      · exact Or.inl (by simp [lexLe, hab, h])
      · exact Or.inr (by simp [lexLe, Ne.symm hab, h])

theorem lexLe_trans : ∀ (s t u : List Char),
    lexLe s t = true → lexLe t u = true → lexLe s u = true
  | [], _, _, _, _ => rfl
  | _ :: _, [], _, h1, _ => by simp [lexLe] at h1
  | _ :: _, _ :: _, [], _, h2 => by simp [lexLe] at h2
  | a :: as, b :: bs, c :: cs, h1, h2 => by
    by_cases hab : a = b <;> by_cases hbc : b = c
    · subst hab; subst hbc
      simp only [lexLe, beq_self_eq_true, if_true] at h1 h2 ⊢
      exact lexLe_trans as bs cs h1 h2
    · subst hab
      simp [lexLe, hbc] at h2 ⊢
      exact h2
    · subst hbc
      simp [lexLe, hab] at h1 ⊢
      exact h1
    · simp [lexLe, hab] at h1
      simp [lexLe, hbc] at h2
      have hac : a < c := lt_trans h1 h2
      simp [lexLe, ne_of_lt hac, hac]

instance {F : Type} : IsTotal (TrackRecord F) (rAsc F) :=
  ⟨fun a b => lexLe_total a.timestamp.data b.timestamp.data⟩

instance {F : Type} : IsTrans (TrackRecord F) (rAsc F) :=
  ⟨fun _ _ _ h1 h2 => lexLe_trans _ _ _ h1 h2⟩

instance {F : Type} : IsTotal (TrackRecord F) (rDesc F) :=
  ⟨fun a b => lexLe_total b.timestamp.data a.timestamp.data⟩

instance {F : Type} : IsTrans (TrackRecord F) (rDesc F) :=
  ⟨fun _ _ _ h1 h2 => lexLe_trans _ _ _ h2 h1⟩

/-! ## Facts about the modeled store sort -/

theorem insertionSort_eq_nil {α : Type} (r : α → α → Prop) [DecidableRel r]
    {l : List α} (h : List.insertionSort r l = []) : l = [] := by
  have hp := List.perm_insertionSort r l
  rw [h] at hp
  exact hp.symm.eq_nil

theorem insertionSort_head_rel {α : Type} (r : α → α → Prop) [DecidableRel r]
    [IsTotal α r] [IsTrans α r] {l : List α} {a : α} {rest : List α}
    (h : List.insertionSort r l = a :: rest) : a ∈ l ∧ ∀ x ∈ l, r a x := by
  have hperm := List.perm_insertionSort r l
  have hsorted := List.sorted_insertionSort r l
  rw [h] at hperm hsorted
  refine ⟨hperm.mem_iff.mp (List.mem_cons_self a rest), ?_⟩
  intro x hx
  rcases List.mem_cons.mp (hperm.mem_iff.mpr hx) with rfl | hx2
  · rcases total_of r x x with h2 | h2 <;> exact h2
  · exact (List.sorted_cons.mp hsorted).1 x hx2

/-! ## Claim theorems -/

/-- Characterization of the DEAD exact-instant branch (lines 65-85, never
reached because of the line-49 raise — see `get_track_data`): were it
executed, it would return at most one point — the latest stored record of
the requested storm with `timestamp <= target`, or, when no such record
exists but the storm has records, the single earliest record of the storm
instead of an empty result.  This shows the nearest-before logic below
the line-49 bug does implement the documented intent. -/
theorem exact_instant_returns_nearest_before {F : Type}
    (recs : List (TrackRecord F)) (storm target : String) :
    (queryExactInstant recs storm target).length ≤ 1
    ∧ (∀ r ∈ queryExactInstant recs storm target, r ∈ recs ∧ r.storm_id = storm)
    ∧ ((∃ x ∈ recs, x.storm_id = storm ∧ tsLe x.timestamp target = true) →
        ∃ r, queryExactInstant recs storm target = [r]
          ∧ r ∈ recs ∧ r.storm_id = storm ∧ tsLe r.timestamp target = true
          ∧ ∀ x ∈ recs, x.storm_id = storm → tsLe x.timestamp target = true →
              tsLe x.timestamp r.timestamp = true)
    ∧ ((¬ ∃ x ∈ recs, x.storm_id = storm ∧ tsLe x.timestamp target = true) →
        (∃ x ∈ recs, x.storm_id = storm) →
        ∃ r, queryExactInstant recs storm target = [r]
          ∧ r ∈ recs ∧ r.storm_id = storm
          ∧ ∀ x ∈ recs, x.storm_id = storm → tsLe r.timestamp x.timestamp = true) := by
  refine ⟨?_, ?_, ?_, ?_⟩
  · simp only [queryExactInstant]
    split <;> simp [List.length_take]
  · intro r hr
    simp only [queryExactInstant] at hr
    split at hr
    · have h1 := List.mem_filter.mp ((List.mem_insertionSort _).mp (List.mem_of_mem_take hr))
      exact ⟨h1.1, by simpa [beq_iff_eq] using h1.2⟩
    · have h1 := List.mem_filter.mp ((List.mem_insertionSort _).mp (List.mem_of_mem_take hr))
      have h2 : r.storm_id = storm ∧ tsLe r.timestamp target = true := by
        simpa [Bool.and_eq_true, beq_iff_eq] using h1.2
      exact ⟨h1.1, h2.1⟩
  · intro hex
    obtain ⟨x, hxmem, hxstorm, hxle⟩ := hex
    have hxfl : x ∈ recs.filter (fun r => r.storm_id == storm && tsLe r.timestamp target) := by
      simp [List.mem_filter, hxmem, hxstorm, hxle]
    cases hs : List.insertionSort (rDesc F)
        (recs.filter (fun r => r.storm_id == storm && tsLe r.timestamp target)) with
    | nil =>
      rw [insertionSort_eq_nil (rDesc F) hs] at hxfl
      exact absurd hxfl (List.not_mem_nil x)
    | cons a rest =>
      have hhead := insertionSort_head_rel (rDesc F) hs
      have hafl := List.mem_filter.mp hhead.1
      have hap : a.storm_id = storm ∧ tsLe a.timestamp target = true := by
        have := hafl.2
        simpa [Bool.and_eq_true, beq_iff_eq] using this
      refine ⟨a, ?_, hafl.1, hap.1, hap.2, ?_⟩
      · simp only [queryExactInstant, hs]
        simp
      · intro x2 hx2 hst hle
        exact hhead.2 x2 (by simp [List.mem_filter, hx2, hst, hle])
  · intro hnone hex2
    have hfl1 : recs.filter (fun r => r.storm_id == storm && tsLe r.timestamp target) = [] := by
      rw [List.filter_eq_nil_iff]
      intro x hx hp
      simp only [Bool.and_eq_true, beq_iff_eq] at hp
      exact hnone ⟨x, hx, hp.1, hp.2⟩
    obtain ⟨x, hxmem, hxstorm⟩ := hex2
    have hxfl2 : x ∈ recs.filter (fun r => r.storm_id == storm) := by
      simp [List.mem_filter, hxmem, hxstorm]
    cases hs2 : List.insertionSort (rAsc F) (recs.filter (fun r => r.storm_id == storm)) with
    | nil =>
      rw [insertionSort_eq_nil (rAsc F) hs2] at hxfl2
      exact absurd hxfl2 (List.not_mem_nil x)
    | cons a rest =>
      have hhead := insertionSort_head_rel (rAsc F) hs2
      have hafl := List.mem_filter.mp hhead.1
      have hap : a.storm_id = storm := by
        have := hafl.2
        simpa [beq_iff_eq] using this
      refine ⟨a, ?_, hafl.1, hap, ?_⟩
      · simp only [queryExactInstant, hfl1, hs2]
        simp
      · intro x2 hx2 hst
        exact hhead.2 x2 (by simp [List.mem_filter, hx2, hst])

/-- Concrete instance of the dead-branch characterization: against a
three-point store, a query instant preceding all data would yield the
single earliest record instead of an empty result. -/
theorem exact_instant_returns_nearest_before_witness :
    (¬ ∃ x ∈ wStore, x.storm_id = defaultStormId ∧ tsLe x.timestamp wTearly = true)
    ∧ (∃ x ∈ wStore, x.storm_id = defaultStormId)
    ∧ ∃ r, queryExactInstant wStore defaultStormId wTearly = [r]
        ∧ r ∈ wStore ∧ r.storm_id = defaultStormId
        ∧ ∀ x ∈ wStore, x.storm_id = defaultStormId → tsLe r.timestamp x.timestamp = true :=
  ⟨by decide, by decide,
    (exact_instant_returns_nearest_before wStore defaultStormId wTearly).2.2.2
      (by decide) (by decide)⟩

/-- Characterization of the DEAD range branch (lines 87-103, never reached
because of the line-49 raise — see `get_track_data`): were it executed,
it would return exactly the stored records of the requested storm with
`start <= timestamp <= end` (both bounds inclusive), ordered ascending by
timestamp — a permutation of the filtered store, membership characterized
by the inclusive bounds, sorted ascending. -/
theorem range_query_inclusive_ascending {F : Type}
    (recs : List (TrackRecord F)) (storm startT endT : String) :
    (queryRange recs storm startT endT).Perm
      (recs.filter (fun r => r.storm_id == storm && tsLe startT r.timestamp
                               && tsLe r.timestamp endT))
    ∧ (∀ x, x ∈ queryRange recs storm startT endT ↔
        x ∈ recs ∧ x.storm_id = storm ∧ tsLe startT x.timestamp = true
          ∧ tsLe x.timestamp endT = true)
    ∧ List.Sorted (rAsc F) (queryRange recs storm startT endT) := by
  refine ⟨List.perm_insertionSort _ _, ?_, List.sorted_insertionSort _ _⟩
  intro x
  rw [queryRange, List.mem_insertionSort, List.mem_filter]
  simp [Bool.and_eq_true, beq_iff_eq, and_assoc]

/-- C3: a processed placemark yields a record iff both its coordinates and
its timestamp parsed; wind and pressure are independently optional (the
produced record carries exactly their parse outcome, set or unset), and a
placemark missing either required part yields no record at all — never a
partial one (every produced record carries all of latitude, longitude and
timestamp from the successful parses). -/
theorem record_admission_rule {F : Type} (fp : String → Option F)
    (ip : String → Option Int) (pm : Placemark) :
    ((processPlacemark fp ip pm).isSome ↔
      (pm.coordText.bind (parseCoords fp)).isSome
        ∧ (pm.descText.bind getTimestamp).isSome)
    ∧ (∀ r, processPlacemark fp ip pm = some r →
        ∃ lon lat t, pm.coordText.bind (parseCoords fp) = some (lon, lat)
          ∧ pm.descText.bind getTimestamp = some t
          ∧ r.longitude = lon ∧ r.latitude = lat ∧ r.timestamp = formatTs t
          ∧ r.wind_kts = pm.descText.bind (getWind ip)
          ∧ r.pressure_mb = pm.descText.bind getPressure) := by
  cases hc : pm.coordText.bind (parseCoords fp) with
  | none =>
    constructor
    · simp [processPlacemark, hc]
    · intro r hr
      simp [processPlacemark, hc] at hr
  | some lonlat =>
    cases ht : pm.descText.bind getTimestamp with
    | none =>
      constructor
      · simp [processPlacemark, hc, ht]
      · intro r hr
        simp [processPlacemark, hc, ht] at hr
    | some t =>
      constructor
      · simp [processPlacemark, hc, ht]
      · intro r hr
        simp only [processPlacemark, hc, ht, Option.some.injEq] at hr
        exact ⟨lonlat.1, lonlat.2, t, rfl, rfl, by rw [← hr], by rw [← hr],
          by rw [← hr], by rw [← hr], by rw [← hr]⟩

/-- Witness for C3: the sample placemark with parseable coordinates and DTG
produces exactly the record with matching fields. -/
theorem record_admission_rule_witness :
    processPlacemark wFp wIp wPm = some wRecFull
    ∧ ∃ lon lat t, wPm.coordText.bind (parseCoords wFp) = some (lon, lat)
        ∧ wPm.descText.bind getTimestamp = some t
        ∧ wRecFull.longitude = lon ∧ wRecFull.latitude = lat
        ∧ wRecFull.timestamp = formatTs t
        ∧ wRecFull.wind_kts = wPm.descText.bind (getWind wIp)
        ∧ wRecFull.pressure_mb = wPm.descText.bind getPressure :=
  ⟨by decide, (record_admission_rule wFp wIp wPm).2 wRecFull (by decide)⟩

/-- Every admitted record is built by the literal dictionary of lines
186-194: fixed storm identifier and a point geometry assembled from the
same parsed longitude/latitude that fill the scalar fields. -/
theorem processed_record_fields {F : Type} (fp : String → Option F)
    (ip : String → Option Int) (pm : Placemark) (r : TrackRecord F)
    (h : processPlacemark fp ip pm = some r) :
    r.storm_id = STORM_NAME_FOR_DB ∧ r.location.gtype = pointType
      ∧ r.location.coordinates = [r.longitude, r.latitude] := by
  unfold processPlacemark at h
  split at h
  · injection h with h2
    subst h2
    exact ⟨rfl, rfl, rfl⟩
  · cases h

/-- C10: every record produced by extraction keeps the redundant coordinate
fields consistent — its geometry is the point `[longitude, latitude]` built
from the very values stored in the scalar fields — and carries the fixed
configured storm identifier. -/
theorem extracted_record_consistency {F : Type} (fp : String → Option F)
    (ip : String → Option Int) (doc : KmlDoc) :
    ∀ r ∈ parse_kml_features fp ip doc,
      r.location.gtype = pointType
      ∧ r.location.coordinates = [r.longitude, r.latitude]
      ∧ r.storm_id = STORM_NAME_FOR_DB := by
  intro r hr
  obtain ⟨pm, _, hproc⟩ := List.mem_filterMap.mp hr
  have hf := processed_record_fields fp ip pm r hproc
  exact ⟨hf.2.1, hf.2.2, hf.1⟩

/-- Witness for C10 at the concrete sample document. -/
theorem extracted_record_consistency_witness :
    wRecFull ∈ parse_kml_features wFp wIp wDoc
    ∧ wRecFull.location.gtype = pointType
    ∧ wRecFull.location.coordinates = [wRecFull.longitude, wRecFull.latitude]
    ∧ wRecFull.storm_id = STORM_NAME_FOR_DB :=
  ⟨by decide, extracted_record_consistency wFp wIp wDoc wRecFull (by decide)⟩

/-- C9: when extraction produces zero records — the archive was unreadable
or the document admits no placemark — the loader performs neither the
delete nor the insert, leaving the store unchanged. -/
theorem zero_records_leave_store_unchanged {F : Type} (fp : String → Option F)
    (ip : String → Option Int) (store : List (TrackRecord F)) :
    runLoader fp ip store none = store
    ∧ ∀ doc, parse_kml_features fp ip doc = [] →
        runLoader fp ip store (some doc) = store := by
  refine ⟨rfl, ?_⟩
  intro doc h
  simp [runLoader, ingestRecords, h]

/-- Witness for C9: the malformed sample document extracts zero records and
the loader run leaves a non-empty store intact. -/
theorem zero_records_leave_store_unchanged_witness :
    parse_kml_features wFp wIp wDocBad = []
    ∧ runLoader wFp wIp [wRecFull] (some wDocBad) = [wRecFull] :=
  ⟨by decide,
    (zero_records_leave_store_unchanged wFp wIp [wRecFull]).2 wDocBad (by decide)⟩

/-- A non-empty ingestion batch whose records all carry the configured storm
identifier fully replaces that identifier's stored records. -/
theorem countStorm_ingest {F : Type} (store d : List (TrackRecord F)) (hd : d ≠ [])
    (hall : ∀ r ∈ d, r.storm_id = STORM_NAME_FOR_DB) :
    countStorm (ingestRecords store d) STORM_NAME_FOR_DB = d.length := by
  have hne : d.isEmpty = false := by
    cases d with
    | nil => exact absurd rfl hd
    | cons a l => rfl
  have h1 : (store.filter (fun r => !(r.storm_id == STORM_NAME_FOR_DB))).filter
      (fun r => r.storm_id == STORM_NAME_FOR_DB) = [] := by
    rw [List.filter_eq_nil_iff]
    intro a ha hp
    have hq := (List.mem_filter.mp ha).2
    rw [hp] at hq
    simp at hq
  have h2 : d.filter (fun r => r.storm_id == STORM_NAME_FOR_DB) = d :=
    List.filter_eq_self.mpr (fun a ha => by simp [beq_iff_eq, hall a ha])
  simp only [ingestRecords, hne, Bool.false_eq_true, if_false, insert_many,
    delete_many, countStorm, List.filter_append, h1, h2, List.nil_append]

/-- C4 (amended): ingesting an archive that yields at least one record
leaves exactly that many records under the configured storm identifier no
matter how many existed before, and re-running the same ingestion again
still leaves exactly that many. -/
theorem full_replace_semantics {F : Type} (fp : String → Option F)
    (ip : String → Option Int) (store : List (TrackRecord F)) (doc : KmlDoc)
    (h : parse_kml_features fp ip doc ≠ []) :
    countStorm (runLoader fp ip store (some doc)) STORM_NAME_FOR_DB
      = (parse_kml_features fp ip doc).length
    ∧ countStorm (runLoader fp ip (runLoader fp ip store (some doc)) (some doc))
        STORM_NAME_FOR_DB = (parse_kml_features fp ip doc).length := by
  have hall : ∀ r ∈ parse_kml_features fp ip doc, r.storm_id = STORM_NAME_FOR_DB := by
    intro r hr
    obtain ⟨pm, _, hproc⟩ := List.mem_filterMap.mp hr
    exact (processed_record_fields fp ip pm r hproc).1
  exact ⟨countStorm_ingest store _ h hall, countStorm_ingest _ _ h hall⟩

/-- Witness for C4: one well-formed placemark ingested over a one-record
store leaves exactly one record, also after a second run. -/
theorem full_replace_semantics_witness :
    parse_kml_features wFp wIp wDoc ≠ []
    ∧ countStorm (runLoader wFp wIp [wRecFull] (some wDoc)) STORM_NAME_FOR_DB
        = (parse_kml_features wFp wIp wDoc).length
    ∧ countStorm (runLoader wFp wIp (runLoader wFp wIp [wRecFull] (some wDoc))
        (some wDoc)) STORM_NAME_FOR_DB = (parse_kml_features wFp wIp wDoc).length :=
  ⟨by decide, (full_replace_semantics wFp wIp [wRecFull] wDoc (by decide)).1,
    (full_replace_semantics wFp wIp [wRecFull] wDoc (by decide)).2⟩

/-- Counterexample for C4 as frozen: an archive yielding `N = 0` extracted
records does not leave `0` stored records for the storm identifier — the
pipeline aborts before the delete, so a pre-existing record survives. -/
theorem full_replace_counterexample :
    parse_kml_features wFp wIp wDocBad = []
    ∧ countStorm (runLoader wFp wIp [wRecFull] (some wDocBad)) STORM_NAME_FOR_DB = 1 := by
  exact ⟨by decide, by decide⟩

/-- C6: placemark lookup uses the two-tier namespace fallback — choose the
default declared namespace, else the one registered under the `kml` prefix,
else the first declared namespace; search under it, and on zero results (or
when no namespace was declared) retry the same query unqualified, so that a
document without namespace declarations still yields its placemarks through
the unqualified path. -/
theorem namespace_fallback (doc : KmlDoc) :
    (∀ u, nsLookup none doc.nsmap = some u → selectNamespace doc.nsmap = some u)
    ∧ (nsLookup none doc.nsmap = none →
        ∀ u, nsLookup (some kmlKey) doc.nsmap = some u →
          selectNamespace doc.nsmap = some u)
    ∧ (nsLookup none doc.nsmap = none → nsLookup (some kmlKey) doc.nsmap = none →
        ∀ p u rest, doc.nsmap = (p, u) :: rest → selectNamespace doc.nsmap = some u)
    ∧ (∀ uri, selectNamespace doc.nsmap = some uri → xpathPlacemarksNS doc uri = [] →
        findPlacemarks doc = xpathPlacemarksNoNS doc)
    ∧ (doc.nsmap = [] →
        findPlacemarks doc = xpathPlacemarksNoNS doc
        ∧ ∀ e, (e ∈ findPlacemarks doc ↔
            e ∈ doc.elements ∧ e.ns = none ∧ e.tag = placemarkTag)) := by
  refine ⟨?_, ?_, ?_, ?_, ?_⟩
  · intro u hu
    rcases hmap : doc.nsmap with _ | ⟨⟨p0, u0⟩, rest⟩
    · rw [hmap] at hu
      cases hu
    · rw [hmap] at hu
      simp [selectNamespace, hu]
  · intro h0 u hu
    rcases hmap : doc.nsmap with _ | ⟨⟨p0, u0⟩, rest⟩
    · rw [hmap] at hu
      cases hu
    · rw [hmap] at h0 hu
      simp [selectNamespace, h0, hu]
  · intro h0 h1 p u rest hmap
    rw [hmap] at h0 h1 ⊢
    simp [selectNamespace, h0, h1]
  · intro uri hsel hempty
    simp [findPlacemarks, hsel, hempty]
  · intro hmap
    have hsel : selectNamespace doc.nsmap = none := by rw [hmap]; rfl
    have hfind : findPlacemarks doc = xpathPlacemarksNoNS doc := by
      simp [findPlacemarks, hsel]
    refine ⟨hfind, ?_⟩
    intro e
    rw [hfind]
    simp [xpathPlacemarksNoNS, List.mem_filter, Bool.and_eq_true, beq_iff_eq,
      and_assoc]

/-- Witness for C6: the mis-declared document resolves its namespace to the
first declared entry, finds nothing under it, and falls back to the
unqualified search; the declaration-free document yields its placemarks
through the unqualified path. -/
theorem namespace_fallback_witness :
    selectNamespace wDoc2.nsmap = some wUri
    ∧ xpathPlacemarksNS wDoc2 wUri = []
    ∧ findPlacemarks wDoc2 = xpathPlacemarksNoNS wDoc2
    ∧ (findPlacemarks wDoc = xpathPlacemarksNoNS wDoc
       ∧ ∀ e, (e ∈ findPlacemarks wDoc ↔
          e ∈ wDoc.elements ∧ e.ns = none ∧ e.tag = placemarkTag)) :=
  ⟨by decide, by decide,
    (namespace_fallback wDoc2).2.2.2.1 wUri (by decide) (by decide),
    (namespace_fallback wDoc).2.2.2.2 (by decide)⟩

/-- C1 (code bug): the claim asserts the nearest-before result, but the
exact-instant branch is dead code — on a live connection the line-49
truthiness test on the pymongo `Collection` raises `NotImplementedError`
before any parameter is read, so every exact-instant request is answered
with the generic 500 page, never a feature collection; concretely, the
request `timestamp=wT1` against the three-point store yields the 500. -/
theorem exact_instant_requests_raise :
    (∀ (tsv : String) (stormP : Option String),
      get_track_data isoParseModel (some wConn) (some tsv) none none stormP
        = .err 500 errInternal)
    ∧ get_track_data isoParseModel (some wConn) (some wT1) none none none
        = .err 500 errInternal
    ∧ ∀ fs : List (Feature Int),
        get_track_data isoParseModel (some wConn) (some wT1) none none none ≠ .ok fs :=
  ⟨fun _ _ => rfl, rfl, fun _ h => ApiResponse.noConfusion h⟩

/-- C2 (code bug): the claim asserts the inclusive ascending range result,
but the range branch is dead code — the same line-49 raise answers every
start/end request with the generic 500 page, never the filtered records;
concretely, the request `start=wT0, end=wT2` against the three-point store
yields the 500 instead of the three matching points. -/
theorem range_requests_raise :
    (∀ (sv ev : String) (stormP : Option String),
      get_track_data isoParseModel (some wConn) none (some sv) (some ev) stormP
        = .err 500 errInternal)
    ∧ get_track_data isoParseModel (some wConn) none (some wT0) (some wT2) none
        = .err 500 errInternal
    ∧ ∀ fs : List (Feature Int),
        get_track_data isoParseModel (some wConn) none (some wT0) (some wT2) none ≠ .ok fs :=
  ⟨fun _ _ _ => rfl, rfl, fun _ h => ApiResponse.noConfusion h⟩

/-- C7 (code bug): the claim asserts 400 for malformed instants and the
query-failure 500 body, but with a live connection the line-49 raise
answers every request — malformed instant or not, failing query or not —
with the generic 500 page: the 400 bodies and the query-error body are
never produced, and every request of the service, live or down, has
status 500. -/
theorem malformed_instant_requests_raise :
    isoParseModel wBadInstant = none
    ∧ get_track_data isoParseModel (some wConn) (some wBadInstant) none none none
        = .err 500 errInternal
    ∧ (∀ msg, get_track_data isoParseModel (some wConn) (some wBadInstant) none none none
        ≠ .err 400 msg)
    ∧ get_track_data isoParseModel (some wConnFail) none none none none
        = .err 500 errInternal
    ∧ ∀ (conn : Option (StoreConn Int)) (tsP startP endP stormP : Option String),
        statusOf (get_track_data isoParseModel conn tsP startP endP stormP) = 500 := by
  refine ⟨by decide, rfl, ?_, rfl, ?_⟩
  · intro msg h
    simp [get_track_data] at h
  · intro conn tsP startP endP stormP
    cases conn <;> rfl

/-! ## Digit and serialization lemmas for the DTG claim -/

theorem digitVal_le_nine {c : Char} (h : isAsciiDigit c = true) : digitVal c ≤ 9 := by
  simp only [isAsciiDigit, Bool.and_eq_true, decide_eq_true_eq] at h
  unfold digitVal
  omega

theorem isAsciiDigit_digitChar {n : Nat} (h : n < 10) : isAsciiDigit (digitChar n) = true := by
  interval_cases n <;> decide

theorem digitVal_digitChar {n : Nat} (h : n < 10) : digitVal (digitChar n) = n := by
  interval_cases n <;> decide

theorem pad2_data {n : Nat} (h : n < 100) :
    (pad2 n).data = [digitChar (n / 10), digitChar (n % 10)] := by
  simp [pad2, h]

theorem pad2_spec {n : Nat} (h : n < 100) :
    (pad2 n).data.length = 2 ∧ (pad2 n).data.all isAsciiDigit = true
      ∧ digitsToNat (pad2 n) = n := by
  have hd := pad2_data h
  refine ⟨by rw [hd]; rfl, ?_, ?_⟩
  · rw [hd]
    simp [isAsciiDigit_digitChar (show n / 10 < 10 by omega),
      isAsciiDigit_digitChar (show n % 10 < 10 by omega)]
  · unfold digitsToNat
    rw [hd]
    simp only [List.foldl_cons, List.foldl_nil]
    rw [digitVal_digitChar (show n / 10 < 10 by omega),
      digitVal_digitChar (show n % 10 < 10 by omega)]
    omega

theorem pad4_data {n : Nat} (h : n < 10000) :
    (pad4 n).data = [digitChar (n / 1000), digitChar (n / 100 % 10),
      digitChar (n / 10 % 10), digitChar (n % 10)] := by
  simp [pad4, h]

theorem pad4_spec {n : Nat} (h : n < 10000) :
    (pad4 n).data.length = 4 ∧ (pad4 n).data.all isAsciiDigit = true
      ∧ digitsToNat (pad4 n) = n := by
  have hd := pad4_data h
  refine ⟨by rw [hd]; rfl, ?_, ?_⟩
  · rw [hd]
    simp [isAsciiDigit_digitChar (show n / 1000 < 10 by omega),
      isAsciiDigit_digitChar (show n / 100 % 10 < 10 by omega),
      isAsciiDigit_digitChar (show n / 10 % 10 < 10 by omega),
      isAsciiDigit_digitChar (show n % 10 < 10 by omega)]
  · unfold digitsToNat
    rw [hd]
    simp only [List.foldl_cons, List.foldl_nil]
    rw [digitVal_digitChar (show n / 1000 < 10 by omega),
      digitVal_digitChar (show n / 100 % 10 < 10 by omega),
      digitVal_digitChar (show n / 10 % 10 < 10 by omega),
      digitVal_digitChar (show n % 10 < 10 by omega)]
    omega

theorem dashStr_data : dashStr.data = ['-'] := by decide

theorem tSepStr_data : tSepStr.data = ['T'] := by decide

theorem minSecSuffix_data : minSecSuffix.data = [':', '0', '0', ':', '0', '0', 'Z'] := by decide

theorem formatTs_data (dt : DateTimeUTC) :
    (formatTs dt).data
      = (pad4 dt.year).data ++ '-' :: ((pad2 dt.month).data ++ '-' ::
          ((pad2 dt.day).data ++ 'T' :: ((pad2 dt.hour).data
            ++ [':', '0', '0', ':', '0', '0', 'Z']))) := by
  simp [formatTs, String.data_append, dashStr_data, tSepStr_data, minSecSuffix_data]

theorem daysInMonth_le (y m : Nat) : daysInMonth y m ≤ 31 := by
  unfold daysInMonth
  split
  · split <;> omega
  · split <;> omega

theorem list_len10 {α : Type} {l : List α} (h : l.length = 10) :
    ∃ a b c d e f g hh i j, l = [a, b, c, d, e, f, g, hh, i, j] := by
  rcases l with _ | ⟨a, l⟩
  · simp at h
  rcases l with _ | ⟨b, l⟩
  · simp at h
  rcases l with _ | ⟨c, l⟩
  · simp at h
  rcases l with _ | ⟨d, l⟩
  · simp at h
  rcases l with _ | ⟨e, l⟩
  · simp at h
  rcases l with _ | ⟨f, l⟩
  · simp at h
  rcases l with _ | ⟨g, l⟩
  · simp at h
  rcases l with _ | ⟨hh, l⟩
  · simp at h
  rcases l with _ | ⟨i, l⟩
  · simp at h
  rcases l with _ | ⟨j, l⟩
  · simp at h
  rcases l with _ | ⟨k, l⟩
  · exact ⟨a, b, c, d, e, f, g, hh, i, j, rfl⟩
  · simp at h

/-- C5: a DTG value is accepted only when it is exactly 11 characters long
and ends in `Z` (any other value leaves the timestamp unset); an accepted
value is parsed as year/month/day/hour from its ten digit characters (UTC
attached, with the `datetime` range validation), and the stored timestamp
serialization is the fixed twenty-character form `YYYY-MM-DDTHH:MM:SSZ`
whose minutes and seconds are always `00`. -/
theorem dtg_parsing_and_serialization (v : String) :
    (¬ (v.data.length = 11 ∧ v.data.getLast? = some 'Z') → parseDTGVal v = none)
    ∧ ∀ dt, parseDTGVal v = some dt →
        (v.data.length = 11 ∧ v.data.getLast? = some 'Z')
        ∧ (∃ ds, v.data = ds ++ ['Z'] ∧ ds.length = 10 ∧ ds.all isAsciiDigit = true
            ∧ dt.year = digitsToNat (String.mk (ds.take 4))
            ∧ dt.month = digitsToNat (String.mk ((ds.drop 4).take 2))
            ∧ dt.day = digitsToNat (String.mk ((ds.drop 6).take 2))
            ∧ dt.hour = digitsToNat (String.mk (ds.drop 8)))
        ∧ (1 ≤ dt.year ∧ 1 ≤ dt.month ∧ dt.month ≤ 12 ∧ 1 ≤ dt.day
            ∧ dt.day ≤ daysInMonth dt.year dt.month ∧ dt.hour ≤ 23)
        ∧ ∃ Y M D H, (formatTs dt).data
              = Y ++ '-' :: (M ++ '-' :: (D ++ 'T' :: (H ++ [':', '0', '0', ':', '0', '0', 'Z'])))
            ∧ Y.length = 4 ∧ M.length = 2 ∧ D.length = 2 ∧ H.length = 2
            ∧ (Y ++ M ++ D ++ H).all isAsciiDigit = true
            ∧ digitsToNat (String.mk Y) = dt.year ∧ digitsToNat (String.mk M) = dt.month
            ∧ digitsToNat (String.mk D) = dt.day ∧ digitsToNat (String.mk H) = dt.hour := by
  constructor
  · intro hc
    have hcond : ¬ (v.data.getLast? == some 'Z' && v.data.length == 11) = true := by
      simp only [Bool.and_eq_true, beq_iff_eq]
      intro hand
      exact hc ⟨hand.2, hand.1⟩
    unfold parseDTGVal
    rw [if_neg hcond]
  · intro dt hdt
    unfold parseDTGVal at hdt
    by_cases hcond : (v.data.getLast? == some 'Z' && v.data.length == 11) = true
    case neg =>
      rw [if_neg hcond] at hdt
      cases hdt
    rw [if_pos hcond] at hdt
    simp only [Bool.and_eq_true, beq_iff_eq] at hcond
    obtain ⟨hlast, hlen⟩ := hcond
    have hne : v.data ≠ [] := by
      intro h0
      rw [h0] at hlen
      simp at hlen
    have hglast : v.data.getLast hne = 'Z' :=
      Option.some.inj ((List.getLast?_eq_getLast v.data hne).symm.trans hlast)
    have hds : v.data = v.data.dropLast ++ ['Z'] := by
      have h1 := List.dropLast_append_getLast hne
      rw [hglast] at h1
      exact h1.symm
    have hdlen : v.data.dropLast.length = 10 := by
      rw [List.length_dropLast, hlen]
    obtain ⟨y1, y2, y3, y4, mo1, mo2, d1, d2, hr1, hr2, h10⟩ := list_len10 hdlen
    rw [h10] at hdt
    simp only [strptime10] at hdt
    split at hdt
    rotate_left
    · cases hdt
    rename_i hdig
    split at hdt
    rotate_left
    · cases hdt
    rename_i hrange
    injection hdt with hdt2
    subst hdt2
    have hdigs := List.all_eq_true.mp hdig
    have hy1 := digitVal_le_nine (hdigs y1 (by simp))
    have hy2 := digitVal_le_nine (hdigs y2 (by simp))
    have hy3 := digitVal_le_nine (hdigs y3 (by simp))
    have hy4 := digitVal_le_nine (hdigs y4 (by simp))
    refine ⟨⟨hlen, hlast⟩, ?_, ?_, ?_⟩
    · refine ⟨[y1, y2, y3, y4, mo1, mo2, d1, d2, hr1, hr2], by rw [← h10]; exact hds,
        rfl, hdig, ?_, ?_, ?_, ?_⟩ <;>
      · simp only [List.take, List.drop, digitsToNat, List.foldl_cons, List.foldl_nil]
        omega
    · exact hrange
    · have hylt : digitVal y1 * 1000 + digitVal y2 * 100 + digitVal y3 * 10 + digitVal y4
          < 10000 := by omega
      have hmlt : digitVal mo1 * 10 + digitVal mo2 < 100 := by omega
      have hdlt : digitVal d1 * 10 + digitVal d2 < 100 := by
        have h31 := daysInMonth_le (digitVal y1 * 1000 + digitVal y2 * 100
          + digitVal y3 * 10 + digitVal y4) (digitVal mo1 * 10 + digitVal mo2)
        omega
      have hhlt : digitVal hr1 * 10 + digitVal hr2 < 100 := by omega
      obtain ⟨hY1, hY2, hY3⟩ := pad4_spec hylt
      obtain ⟨hM1, hM2, hM3⟩ := pad2_spec hmlt
      obtain ⟨hD1, hD2, hD3⟩ := pad2_spec hdlt
      obtain ⟨hH1, hH2, hH3⟩ := pad2_spec hhlt
      refine ⟨_, _, _, _, formatTs_data _, hY1, hM1, hD1, hH1, ?_, ?_, ?_, ?_, ?_⟩
      · simp only [List.all_append, hY2, hM2, hD2, hH2, Bool.and_self]
      · exact hY3
      · exact hM3
      · exact hD3
      · exact hH3

/-- Witness for C5: the sample DTG value parses to the expected instant and
satisfies the shape conditions; the ten-character variant is rejected. -/
theorem dtg_parsing_and_serialization_witness :
    parseDTGVal wDtgVal = some wDt
    ∧ (wDtgVal.data.length = 11 ∧ wDtgVal.data.getLast? = some 'Z')
    ∧ parseDTGVal wDtgBadVal = none :=
  ⟨by decide, ((dtg_parsing_and_serialization wDtgVal).2 wDt (by decide)).1,
    (dtg_parsing_and_serialization wDtgBadVal).1 (by decide)⟩

/-! ## Substring lemmas for the pressure claim -/

theorem mk_data (l : List Char) : (String.mk l).data = l := rfl

theorem findOcc_append_of_head_not_mem {sep' : List Char} {c : Char} {ys : List Char} :
    ∀ {xs : List Char}, c ∉ xs →
      findOcc (c :: sep') (xs ++ (c :: sep') ++ ys) = some (xs, ys) := by
  intro xs
  induction xs with
  | nil =>
    intro _
    show findOcc (c :: sep') ((c :: sep') ++ ys) = some ([], ys)
    rw [List.cons_append, findOcc]
    have hpre : (c :: sep').isPrefixOf (c :: (sep' ++ ys)) = true := by
      rw [List.isPrefixOf_iff_prefix]
      exact ⟨ys, by simp⟩
    rw [if_pos hpre]
    have hdrop : (c :: (sep' ++ ys)).drop (c :: sep').length = ys := by
      rw [← List.cons_append]
      exact List.drop_left (c :: sep') ys
    rw [hdrop]
  | cons x xs ih =>
    intro hc
    have hxc : c ≠ x := fun he => hc (he ▸ List.mem_cons_self x xs)
    have hcxs : c ∉ xs := fun he => hc (List.mem_cons_of_mem x he)
    show findOcc (c :: sep') (x :: (xs ++ (c :: sep') ++ ys)) = some (x :: xs, ys)
    rw [findOcc]
    have hpre : (c :: sep').isPrefixOf (x :: (xs ++ (c :: sep') ++ ys)) = false := by
      simp [List.isPrefixOf, hxc]
    rw [if_neg (by rw [hpre]; exact Bool.false_ne_true)]
    rw [ih hcxs]
    rfl

theorem dropWhile_eq_self_of_all {p : Char → Bool} :
    ∀ (l : List Char), (∀ x ∈ l, p x = false) → l.dropWhile p = l
  | [], _ => rfl
  | x :: xs, h => by
    rw [List.dropWhile_cons, h x (List.mem_cons_self x xs)]
    simp

theorem pyStrip_of_no_space {l : List Char} (h : ∀ x ∈ l, isPySpace x = false) :
    pyStrip (String.mk l) = String.mk l := by
  have h1 : l.dropWhile isPySpace = l := dropWhile_eq_self_of_all l h
  have h2 : l.reverse.dropWhile isPySpace = l.reverse :=
    dropWhile_eq_self_of_all _ (fun x hx => h x (List.mem_reverse.mp hx))
  show String.mk (((l.dropWhile isPySpace).reverse.dropWhile isPySpace).reverse) = String.mk l
  rw [h1, h2, List.reverse_reverse]

theorem pySpace_toNat {c : Char} (h : isPySpace c = true) : c.toNat ≤ 32 := by
  simp only [isPySpace, Bool.or_eq_true, beq_iff_eq] at h
  rcases h with ((((h | h) | h) | h) | h) | h <;> subst h <;> decide

theorem isPySpace_of_digit {c : Char} (h : isAsciiDigit c = true) : isPySpace c = false := by
  cases hps : isPySpace c
  · rfl
  · exfalso
    have h1 := pySpace_toNat hps
    simp only [isAsciiDigit, Bool.and_eq_true, decide_eq_true_eq] at h
    omega

theorem mbClose_data : mbClose.data = ' ' :: ['m', 'b', '<', '/', 't', 'd', '>'] := by
  decide

/-- C8: the pressure field is the integer parse of the MSLP cell, with an
optional `" mb"` unit suffix tolerated before the closing cell tag — for
every digit string `v` and tail `ys`, the cell `v mb</td>ys` parses to the
value of `v` — and any non-digit extracted value leaves the field unset
without raising (the total model returns `none`). -/
theorem mslp_pressure_parsing :
    (∀ desc part, pySplitIdx1 mslpMarker desc = some part →
      getPressure desc = parsePressurePart part)
    ∧ (∀ part, pyContains part mbClose = true →
        pressureValOf part = pyStrip (beforeFirst mbClose part))
    ∧ (∀ part, pyContains part mbClose = false →
        pressureValOf part = pyStrip (beforeFirst tdClose part))
    ∧ (∀ part, isDigitsNonempty (pressureValOf part) = true →
        parsePressurePart part = some (digitsToNat (pressureValOf part)))
    ∧ (∀ part, isDigitsNonempty (pressureValOf part) = false →
        parsePressurePart part = none)
    ∧ (∀ (v ys : List Char), v ≠ [] → v.all isAsciiDigit = true →
        parsePressurePart (String.mk (v ++ mbClose.data ++ ys))
          = some (digitsToNat (String.mk v))) := by
  refine ⟨?_, ?_, ?_, ?_, ?_, ?_⟩
  · intro desc part h
    unfold getPressure
    rw [h]
    rfl
  · intro part h
    unfold pressureValOf
    rw [if_pos h]
  · intro part h
    unfold pressureValOf
    rw [if_neg (by simp [h])]
  · intro part h
    unfold parsePressurePart
    rw [if_pos h]
  · intro part h
    unfold parsePressurePart
    rw [if_neg (by simp [h])]
  · intro v ys hne hdig
    have hnotin : ' ' ∉ v := by
      intro hmem
      have := List.all_eq_true.mp hdig ' ' hmem
      exact absurd this (by decide)
    have hocc : findOcc mbClose.data (v ++ mbClose.data ++ ys) = some (v, ys) := by
      rw [mbClose_data]
      exact findOcc_append_of_head_not_mem hnotin
    have hcont : pyContains (String.mk (v ++ mbClose.data ++ ys)) mbClose = true := by
      unfold pyContains
      rw [mk_data, hocc]
      rfl
    have hbf : beforeFirst mbClose (String.mk (v ++ mbClose.data ++ ys)) = String.mk v := by
      unfold beforeFirst
      rw [mk_data, hocc]
    have hval : pressureValOf (String.mk (v ++ mbClose.data ++ ys)) = String.mk v := by
      unfold pressureValOf
      rw [if_pos hcont, hbf]
      exact pyStrip_of_no_space
        (fun x hx => isPySpace_of_digit (List.all_eq_true.mp hdig x hx))
    have hnd : isDigitsNonempty (String.mk v) = true := by
      unfold isDigitsNonempty
      have hne2 : (String.mk v == emptyStr) = false := by
        rw [beq_eq_false_iff_ne]
        intro he
        apply hne
        have h3 : (String.mk v).data = emptyStr.data := by rw [he]
        simpa using h3
      rw [mk_data, hne2, hdig]
      rfl
    unfold parsePressurePart
    rw [hval, if_pos hnd]

/-- Witness for C8: the cell text `987 mb</td>` parses to pressure `987`,
and the cell text `N/A</td>` leaves the pressure unset. -/
theorem mslp_pressure_parsing_witness :
    parsePressurePart (String.mk (['9', '8', '7'] ++ mbClose.data ++ []))
        = some (digitsToNat (String.mk ['9', '8', '7']))
    ∧ digitsToNat (String.mk ['9', '8', '7']) = 987
    ∧ isDigitsNonempty (pressureValOf wNaCell) = false
    ∧ parsePressurePart wNaCell = none :=
  ⟨mslp_pressure_parsing.2.2.2.2.2 (['9', '8', '7']) [] (by decide) (by decide),
    by decide, by decide,
    mslp_pressure_parsing.2.2.2.2.1 wNaCell (by decide)⟩

end StormSight
